import Mathlib

/-!
Shallow embedding of the libvirt QEMU protocol driver
(`src/qemu_internal.c`): the synchronous request/reply transactor, the
connection open (with daemon-autostart retry) and close operations, and
the domain/network lifecycle operations, together with theorems settling
the specification claims.

Conventions of the embedding:
* C `int` return codes are `Int` (`0` success, `-1` failure).
* Fixed-capacity NUL-terminated C character buffers are modelled as the
  `List Char` of characters up to the first NUL; writing a forced NUL at
  index `k` of such a buffer is `List.take k`.
* Blocking socket I/O is modelled by an oracle (`Wire`) describing what
  the peer delivers; the driver's read/write loops that retry on partial
  transfers are collapsed to their net effect, with the number of body
  bytes consumed kept observable.
-/

/-- Wire message-type tags used by the driver.

Modelled from the spec: the message-type enumeration lives in
`protocol.h`, which is not under `src/`; the constructors are exactly the
tags the driver source references, including the explicit failure tag. -/
inductive QemudPktType where
  | getVersion
  | getNodeInfo
  | numDomains
  | listDomains
  | domainCreate
  | domainLookupById
  | domainLookupByUuid
  | domainLookupByName
  | domainDestroy
  | domainSuspend
  | domainResume
  | domainGetInfo
  | dumpXml
  | numDefinedDomains
  | listDefinedDomains
  | domainStart
  | domainDefine
  | domainUndefine
  | numNetworks
  | listNetworks
  | numDefinedNetworks
  | listDefinedNetworks
  | networkLookupByUuid
  | networkLookupByName
  | networkCreate
  | networkDefine
  | networkUndefine
  | networkStart
  | networkDestroy
  | networkDumpXml
  | networkGetBridgeName
  | failure
  deriving DecidableEq, Repr

/-- The fixed packet header: message type plus declared body size
(`struct qemud_packet_header`).

Modelled from the spec: the struct itself is declared in `protocol.h`
(not under `src/`); the spec fixes it as message-type tag plus declared
body byte length. -/
structure QemudHeader where
  type : QemudPktType
  dataSize : Nat
  deriving DecidableEq, Repr

/-- The packet body (`union qemud_packet_data`), restricted to the fields
the modelled operations read.

Modelled from the spec: the union is declared in `protocol.h` (not under
`src/`). The union is modelled as a record holding every field of the
variants used here; an operation only ever reads the fields of the
variant selected by the reply's type tag. -/
structure QemudBody where
  failureCode : Nat
  failureMessage : List Char
  getInfoRunstate : Nat
  getInfoMaxmem : Nat
  getInfoMemory : Nat
  getInfoNrVirtCpu : Nat
  getInfoCpuTime : Nat
  createName : List Char
  createUuid : List Nat
  createId : Int
  defineName : List Char
  defineUuid : List Nat
  deriving DecidableEq, Repr

/-- Protocol constants and struct sizes the driver reads.

Modelled from the spec: the numeric values are fixed in `protocol.h`
(not under `src/`); every theorem below holds for arbitrary values, so
they are threaded as parameters. `maxData` is
`sizeof(union qemud_packet_data)`, the maximum size of any defined body
variant. -/
structure ProtoConsts where
  maxData : Nat
  maxErrorLen : Nat
  maxXmlLen : Nat
  maxNameLen : Nat
  szDomainCreateRequest : Nat
  szDomainDefineRequest : Nat
  szDomainDestroyRequest : Nat
  szDomainGetInfoRequest : Nat
  deriving Repr

/-- What the peer delivers during one request/reply exchange: whether the
blocking send of the outgoing packet succeeds, the reply header (or
`none` when the peer closes / errors before a full header arrives), the
number of body bytes available before the peer closes, and the decoded
body content those bytes carry. -/
structure Wire where
  writeOk : Bool
  header : Option QemudHeader
  bodyAvail : Nat
  body : QemudBody

/-- An error raised through `qemuError` (`__virRaiseError`): either a
driver-internal protocol error with a fixed message, or the daemon's own
failure payload (code plus optional message) surfaced to the caller. -/
inductive VirError where
  | internalError (info : String)
  | remoteError (code : Nat) (info : Option (List Char))
  deriving DecidableEq, Repr

/-- `qemuPacketError` from `src/qemu_internal.c`: with no packet, raise
the internal "Malformed data packet" error; with a failure-typed packet,
force NUL-termination of its message buffer and surface the daemon's
failure code and (if non-empty) message; otherwise raise the internal
"Incorrect reply type" error. -/
def qemuPacketError (maxErrorLen : Nat) (pkt : Option (QemudHeader × QemudBody)) :
    VirError :=
  match pkt with
  | none => .internalError "Malformed data packet"
  | some (h, b) =>
    if h.type = .failure then
      let msg := if b.failureMessage.isEmpty then b.failureMessage
                 else b.failureMessage.take (maxErrorLen - 1)
      .remoteError b.failureCode (if msg.isEmpty then none else some msg)
    else .internalError "Incorrect reply type"

/-- Result of one `qemuProcessRequest` exchange: the C return code, the
error (if any) raised via `qemuPacketError`, and how many reply body
bytes were read off the connection. -/
structure ReqResult where
  ret : Int
  raised : Option VirError
  bodyBytesRead : Nat
  deriving DecidableEq, Repr

/-- `qemuProcessRequest` from `src/qemu_internal.c`: blocking full write
of the request, blocking full read of the reply header, rejection of a
header whose declared body size exceeds
`sizeof(union qemud_packet_data)` before any body byte is read, blocking
full read of the declared body, and the reply-type-equals-request-type
check (a mismatch reports via `qemuPacketError` on the reply). -/
def qemuProcessRequest (P : ProtoConsts) (req : QemudHeader) (w : Wire) :
    ReqResult :=
  if ¬ w.writeOk then ⟨-1, none, 0⟩
  else
    match w.header with
    | none => ⟨-1, none, 0⟩
    | some h =>
      if h.dataSize > P.maxData then
        ⟨-1, some (qemuPacketError P.maxErrorLen none), 0⟩
      else if h.dataSize > w.bodyAvail then
        ⟨-1, none, w.bodyAvail⟩
      else if h.type ≠ req.type then
        ⟨-1, some (qemuPacketError P.maxErrorLen (some (h, w.body))), h.dataSize⟩
      else
        ⟨0, none, h.dataSize⟩

/-- Observable trace of `qemuOpenClientUNIX`: the C return code, the
number of times `qemuForkServer` (the daemon-spawn step) was invoked,
and the successive `usleep` delays in microseconds, in order. -/
structure OpenTrace where
  ret : Int
  spawns : Nat
  sleeps : List Nat
  deriving DecidableEq, Repr

/-- The `retry:` loop of `qemuOpenClientUNIX` from `src/qemu_internal.c`,
entered with the current `trials` counter. `socketOk n` / `connectOk n`
tell whether the `socket(2)` / `connect(2)` calls of the attempt made at
counter value `n` succeed; `forkOk` tells whether `qemuForkServer`
returns `0`. On a connect failure with autostart enabled and fewer than
3 trials, the daemon is spawned, `trials` is incremented, the loop
sleeps `5000 * trials * trials` microseconds and retries. -/
def qemuOpenClientUNIXloop (socketOk connectOk : Nat → Bool) (forkOk : Bool)
    (autostart : Bool) (trials : Nat) : OpenTrace :=
  if ¬ socketOk trials then ⟨-1, 0, []⟩
  else if connectOk trials then ⟨0, 0, []⟩
  else if h : autostart ∧ trials < 3 then
    if ¬ forkOk then ⟨-1, 1, []⟩
    else
      let r := qemuOpenClientUNIXloop socketOk connectOk forkOk autostart (trials + 1)
      ⟨r.ret, r.spawns + 1, 5000 * (trials + 1) * (trials + 1) :: r.sleeps⟩
  else ⟨-1, 0, []⟩
termination_by 3 - trials
decreasing_by simp_wf; omega

/-- `qemuOpenClientUNIX` from `src/qemu_internal.c`: the retry loop
started with `trials = 0`. -/
def qemuOpenClientUNIX (socketOk connectOk : Nat → Bool) (forkOk : Bool)
    (autostart : Bool) : OpenTrace :=
  qemuOpenClientUNIXloop socketOk connectOk forkOk autostart 0

/-- Connection state visible to `qemuClose`: the cached socket
descriptor, `-1` when no connection is open. -/
structure VirConnect where
  qemud_fd : Int
  deriving DecidableEq, Repr

/-- Result of `qemuClose`: the updated connection, the C return code,
and the descriptors passed to `close(2)`, in order. -/
structure CloseTrace where
  conn : VirConnect
  ret : Int
  closedFds : List Int
  deriving DecidableEq, Repr

/-- `qemuClose` from `src/qemu_internal.c`: if a descriptor is cached it
is closed and the cache reset to `-1`; the return value is always `0`. -/
def qemuClose (c : VirConnect) : CloseTrace :=
  if c.qemud_fd ≠ -1 then ⟨⟨-1⟩, 0, [c.qemud_fd]⟩
  else ⟨c, 0, []⟩

/-- The `listDomainsReply` body variant: the daemon-reported count of
running domains and their ids.

Modelled from the spec: the variant is declared in `protocol.h` (not
under `src/`); its fixed id array is modelled as a total function so
every in-bounds read is defined. -/
structure ListDomainsReply where
  numDomains : Int
  domains : Nat → Int

/-- A name-list reply body variant (defined domains / networks /
defined networks): the daemon-reported count and the fixed-capacity
name buffers.

Modelled from the spec: declared in `protocol.h` (not under `src/`);
each buffer is the `List Char` up to its first NUL. -/
structure ListNamesReply where
  num : Int
  names : Nat → List Char

/-- Result of a list operation: the entries written into the caller's
array, in order, and the C return value. -/
structure ListTrace (α : Type) where
  written : List α
  ret : Int

/-- The reply-processing tail of `qemuListDomains` from
`src/qemu_internal.c` (after a successful `qemuProcessRequest`): clamp
the daemon-reported count to the caller capacity `maxids`, then copy
that many ids into the caller's array and return the clamped count. -/
def qemuListDomains (reply : ListDomainsReply) (maxids : Int) : ListTrace Int :=
  let nDomains := if reply.numDomains > maxids then maxids else reply.numDomains
  ⟨(List.range nDomains.toNat).map reply.domains, nDomains⟩

/-- The reply-processing tail of `qemuListDefinedDomains` from
`src/qemu_internal.c`: clamp the daemon-reported count to `maxnames`,
force NUL-termination of each name at index `QEMUD_MAX_NAME_LEN - 1`,
copy that many names out and return the clamped count. -/
def qemuListDefinedDomains (maxNameLen : Nat) (reply : ListNamesReply)
    (maxnames : Int) : ListTrace (List Char) :=
  let nDomains := if reply.num > maxnames then maxnames else reply.num
  ⟨(List.range nDomains.toNat).map (fun i => (reply.names i).take (maxNameLen - 1)),
    nDomains⟩

/-- The reply-processing tail of `qemuListNetworks` from
`src/qemu_internal.c`: if the daemon-reported count exceeds `maxnames`,
return `-1` writing nothing; otherwise copy the NUL-terminated names out
and return the count. -/
def qemuListNetworks (maxNameLen : Nat) (reply : ListNamesReply)
    (maxnames : Int) : ListTrace (List Char) :=
  if reply.num > maxnames then ⟨[], -1⟩
  else
    ⟨(List.range reply.num.toNat).map (fun i => (reply.names i).take (maxNameLen - 1)),
      reply.num⟩

/-- The reply-processing tail of `qemuListDefinedNetworks` from
`src/qemu_internal.c`: same shape as `qemuListNetworks` — an
over-capacity count returns `-1`, otherwise the names are copied out. -/
def qemuListDefinedNetworks (maxNameLen : Nat) (reply : ListNamesReply)
    (maxnames : Int) : ListTrace (List Char) :=
  if reply.num > maxnames then ⟨[], -1⟩
  else
    ⟨(List.range reply.num.toNat).map (fun i => (reply.names i).take (maxNameLen - 1)),
      reply.num⟩

/-- A local domain handle as `virGetDomain` builds it from a reply:
name, raw UUID and numeric id. -/
structure DomainHandle where
  name : List Char
  uuid : List Nat
  id : Int
  deriving DecidableEq, Repr

/-- The caller-side view of a `virDomainPtr` an operation reads:
its numeric id and raw UUID. -/
structure VirDomain where
  id : Int
  uuid : List Nat
  deriving DecidableEq, Repr

/-- Observable trace of a create/define call: whether the transactor was
entered (so a packet write was attempted on the connection) and the
handle produced, if any. -/
structure XmlOpTrace where
  sent : Bool
  result : Option DomainHandle
  deriving DecidableEq, Repr

/-- `qemuDomainCreateLinux` from `src/qemu_internal.c`: reject a
configuration document longer than `QEMUD_MAX_XML_LEN - 1` before
building or sending any packet; otherwise run the exchange and build a
handle from the reply's name (forced NUL at index
`QEMUD_MAX_NAME_LEN - 1`), UUID and id. `virGetDomain` allocation is
assumed to succeed. -/
def qemuDomainCreateLinux (P : ProtoConsts) (xmlDesc : List Char) (w : Wire) :
    XmlOpTrace :=
  if xmlDesc.length > P.maxXmlLen - 1 then ⟨false, none⟩
  else
    let req : QemudHeader := ⟨.domainCreate, P.szDomainCreateRequest⟩
    let r := qemuProcessRequest P req w
    if r.ret < 0 then ⟨true, none⟩
    else ⟨true, some ⟨(w.body.createName).take (P.maxNameLen - 1),
                      w.body.createUuid, w.body.createId⟩⟩

/-- `qemuDomainDefineXML` from `src/qemu_internal.c`: the same up-front
length check as create, then the exchange; the handle is built from the
reply's name and UUID with `id = -1` (a defined domain is not
running). -/
def qemuDomainDefineXML (P : ProtoConsts) (xml : List Char) (w : Wire) :
    XmlOpTrace :=
  if xml.length > P.maxXmlLen - 1 then ⟨false, none⟩
  else
    let req : QemudHeader := ⟨.domainDefine, P.szDomainDefineRequest⟩
    let r := qemuProcessRequest P req w
    if r.ret < 0 then ⟨true, none⟩
    else ⟨true, some ⟨(w.body.defineName).take (P.maxNameLen - 1),
                      w.body.defineUuid, -1⟩⟩

/-- The request packet an operation sends, with the single payload field
it carries. -/
structure SentRequest where
  type : QemudPktType
  dataSize : Nat
  id : Int
  deriving DecidableEq, Repr

/-- Result of a single-field domain operation: the request that was sent
and the C return code. -/
structure OpResult where
  sentReq : SentRequest
  ret : Int
  deriving DecidableEq, Repr

/-- `qemuDestroyDomain` from `src/qemu_internal.c`: send a
`QEMUD_PKT_DOMAIN_DESTROY` request carrying the domain's id, return `0`
on a successful exchange and `-1` otherwise. -/
def qemuDestroyDomain (P : ProtoConsts) (dom : VirDomain) (w : Wire) : OpResult :=
  let req : SentRequest := ⟨.domainDestroy, P.szDomainDestroyRequest, dom.id⟩
  let r := qemuProcessRequest P ⟨req.type, req.dataSize⟩ w
  ⟨req, if r.ret < 0 then -1 else 0⟩

/-- `qemuShutdownDomain` from `src/qemu_internal.c`: a direct tail call
to `qemuDestroyDomain`. -/
def qemuShutdownDomain (P : ProtoConsts) (dom : VirDomain) (w : Wire) : OpResult :=
  qemuDestroyDomain P dom w

/-- Observable trace of an undefine call: how many times the local
handle was released (`virFreeDomain` / `virFreeNetwork`) and the C
return code. -/
structure UndefineTrace where
  freeCalls : Nat
  ret : Int
  deriving DecidableEq, Repr

/-- `qemuUndefine` from `src/qemu_internal.c`: send the undefine request
(outcome `processRet`), jump to `cleanup:` on failure; the cleanup label
releases the local handle unconditionally (outcome `freeRet`), and a
failure of either step makes the return code `-1`. -/
def qemuUndefine (processRet : Int) (freeRet : Int) : UndefineTrace :=
  let ret : Int := if processRet < 0 then -1 else 0
  ⟨1, if freeRet < 0 then -1 else ret⟩

/-- `qemuNetworkUndefine` from `src/qemu_internal.c`: the same shape as
`qemuUndefine` over the network undefine request and
`virFreeNetwork`. -/
def qemuNetworkUndefine (processRet : Int) (freeRet : Int) : UndefineTrace :=
  let ret : Int := if processRet < 0 then -1 else 0
  ⟨1, if freeRet < 0 then -1 else ret⟩

/-- The driver's own domain run-state enumeration (the `virDomainState`
values `qemuGetDomainInfo` produces). -/
inductive VirDomainState where
  | running
  | paused
  | shutoff
  deriving DecidableEq, Repr

/-- The `virDomainInfo` fields `qemuGetDomainInfo` populates. -/
structure VirDomainInfo where
  state : VirDomainState
  maxMem : Nat
  memory : Nat
  nrVirtCpu : Nat
  cpuTime : Nat
  deriving DecidableEq, Repr

/-- Modelled from the spec: the daemon run-state constant
`QEMUD_STATE_RUNNING` is fixed in `protocol.h` (not under `src/`); only
the distinctness of the three constants matters below. -/
def QEMUD_STATE_RUNNING : Nat := 0

/-- Modelled from the spec: the daemon run-state constant
`QEMUD_STATE_PAUSED`, see `QEMUD_STATE_RUNNING`. -/
def QEMUD_STATE_PAUSED : Nat := 1

/-- Modelled from the spec: the daemon run-state constant
`QEMUD_STATE_STOPPED`, see `QEMUD_STATE_RUNNING`. -/
def QEMUD_STATE_STOPPED : Nat := 2

/-- `qemuGetDomainInfo` from `src/qemu_internal.c`: send the get-info
request, then switch on the reply's run-state — running, paused and
stopped map to the driver's running, paused and shutoff; any other value
returns failure without populating the info. -/
def qemuGetDomainInfo (P : ProtoConsts) (dom : VirDomain) (w : Wire) :
    Option VirDomainInfo :=
  let r := qemuProcessRequest P ⟨.domainGetInfo, P.szDomainGetInfoRequest⟩ w
  if r.ret < 0 then none
  else
    let b := w.body
    if b.getInfoRunstate = QEMUD_STATE_RUNNING then
      some ⟨.running, b.getInfoMaxmem, b.getInfoMemory, b.getInfoNrVirtCpu,
            b.getInfoCpuTime⟩
    else if b.getInfoRunstate = QEMUD_STATE_PAUSED then
      some ⟨.paused, b.getInfoMaxmem, b.getInfoMemory, b.getInfoNrVirtCpu,
            b.getInfoCpuTime⟩
    else if b.getInfoRunstate = QEMUD_STATE_STOPPED then
      some ⟨.shutoff, b.getInfoMaxmem, b.getInfoMemory, b.getInfoNrVirtCpu,
            b.getInfoCpuTime⟩
    else none

/-- Concrete protocol constants used by the witnesses below. -/
def specP : ProtoConsts := ⟨8, 6, 4, 4, 1, 1, 1, 1⟩

/-- A concrete packet body used by the witnesses below. -/
def specBody : QemudBody :=
  ⟨7, ['b', 'a', 'd'], 0, 0, 0, 0, 0, [], [], 0, [], []⟩

/-- Claim C1: with autostart enabled, against a socket that never becomes
connectable, the connect loop invokes the daemon-spawn step exactly 3
times, sleeps between attempts for `5000 * k * k` microseconds at
attempt `k` (a monotonically increasing delay proportional to the square
of the attempt number), and then fails. -/
theorem c1_autostart_retry_bound (socketOk connectOk : Nat → Bool) (forkOk : Bool)
    (hs : ∀ n, socketOk n = true) (hc : ∀ n, connectOk n = false)
    (hf : forkOk = true) :
    qemuOpenClientUNIX socketOk connectOk forkOk true =
      ⟨-1, 3, [5000 * 1 * 1, 5000 * 2 * 2, 5000 * 3 * 3]⟩ ∧
    (qemuOpenClientUNIX socketOk connectOk forkOk true).sleeps =
      (List.range 3).map (fun k => 5000 * (k + 1) * (k + 1)) ∧
    List.Chain' (· < ·) (qemuOpenClientUNIX socketOk connectOk forkOk true).sleeps := by
  have key : qemuOpenClientUNIX socketOk connectOk forkOk true =
      ⟨-1, 3, [5000 * 1 * 1, 5000 * 2 * 2, 5000 * 3 * 3]⟩ := by
    subst hf
    unfold qemuOpenClientUNIX
    rw [qemuOpenClientUNIXloop]
    simp only [hs, hc]
    rw [qemuOpenClientUNIXloop]
    simp only [hs, hc]
    rw [qemuOpenClientUNIXloop]
    simp only [hs, hc]
    rw [qemuOpenClientUNIXloop]
    simp only [hs, hc]
    norm_num
  have hsleeps : (qemuOpenClientUNIX socketOk connectOk forkOk true).sleeps =
      [5000 * 1 * 1, 5000 * 2 * 2, 5000 * 3 * 3] := by rw [key]
  refine ⟨key, ?_, ?_⟩
  · rw [hsleeps]; decide
  · rw [hsleeps]; norm_num [List.chain'_cons]

/-- Claim C1 witness: the retry bound evaluated with a never-connectable
socket oracle. -/
theorem c1_witness :
    qemuOpenClientUNIX (fun _ => true) (fun _ => false) true true =
      ⟨-1, 3, [5000 * 1 * 1, 5000 * 2 * 2, 5000 * 3 * 3]⟩ :=
  (c1_autostart_retry_bound (fun _ => true) (fun _ => false) true
    (fun _ => rfl) (fun _ => rfl) rfl).1

/-- Claim C2: a reply header declaring a body size greater than
`sizeof(union qemud_packet_data)` is rejected — the exchange fails with
the internal malformed-packet error and zero body bytes are read from
the connection. -/
theorem c2_oversize_header_rejected (P : ProtoConsts) (req h : QemudHeader)
    (w : Wire) (hw : w.writeOk = true) (hh : w.header = some h)
    (hs : h.dataSize > P.maxData) :
    qemuProcessRequest P req w =
      ⟨-1, some (VirError.internalError "Malformed data packet"), 0⟩ := by
  simp [qemuProcessRequest, hw, hh, hs, qemuPacketError]

/-- Claim C2 witness: a header declaring 9 body bytes against a maximum
variant size of 8 is rejected with no body byte read. -/
theorem c2_witness :
    (9 : Nat) > specP.maxData ∧
    qemuProcessRequest specP ⟨.getVersion, 0⟩
        (Wire.mk true (some ⟨.getVersion, 9⟩) 0 specBody) =
      ⟨-1, some (VirError.internalError "Malformed data packet"), 0⟩ :=
  ⟨by decide,
   c2_oversize_header_rejected specP ⟨.getVersion, 0⟩ ⟨.getVersion, 9⟩
     (Wire.mk true (some ⟨.getVersion, 9⟩) 0 specBody) rfl rfl (by decide)⟩

/-- Claim C3: a complete, size-valid reply whose type differs from the
request's type makes the exchange fail with the error `qemuPacketError`
derives from the reply, whatever the body holds; when the reply is an
explicit failure packet, the daemon's failure code and (NUL-terminated,
non-empty) message are surfaced, and otherwise the internal
incorrect-reply-type error is raised. -/
theorem c3_type_mismatch_protocol_error (P : ProtoConsts) (req h : QemudHeader)
    (w : Wire) (hw : w.writeOk = true) (hh : w.header = some h)
    (hsz : h.dataSize ≤ P.maxData) (hba : h.dataSize ≤ w.bodyAvail)
    (ht : h.type ≠ req.type) :
    (qemuProcessRequest P req w).ret = -1 ∧
    (qemuProcessRequest P req w).raised =
      some (qemuPacketError P.maxErrorLen (some (h, w.body))) ∧
    (h.type = .failure →
      qemuPacketError P.maxErrorLen (some (h, w.body)) =
        .remoteError w.body.failureCode
          (if (w.body.failureMessage.take (P.maxErrorLen - 1)).isEmpty then none
           else some (w.body.failureMessage.take (P.maxErrorLen - 1)))) ∧
    (h.type ≠ .failure →
      qemuPacketError P.maxErrorLen (some (h, w.body)) =
        .internalError "Incorrect reply type") := by
  have h1 : ¬ h.dataSize > P.maxData := by omega
  have h2 : ¬ h.dataSize > w.bodyAvail := by omega
  refine ⟨?_, ?_, ?_, ?_⟩
  · simp [qemuProcessRequest, hw, hh, h1, h2, ht]
  · simp [qemuProcessRequest, hw, hh, h1, h2, ht]
  · intro hfail
    by_cases he : w.body.failureMessage.isEmpty
    · have : w.body.failureMessage = [] := List.isEmpty_iff.mp he
      simp [qemuPacketError, hfail, this]
    · simp [qemuPacketError, hfail, he]
  · intro hfail
    simp [qemuPacketError, hfail]

/-- Claim C3 witness: a failure-typed reply answering a get-version
request yields a failed exchange surfacing the daemon's code 7 and its
message. -/
theorem c3_witness :
    (2 : Nat) ≤ specP.maxData ∧
    (qemuProcessRequest specP ⟨.getVersion, 0⟩
        (Wire.mk true (some ⟨.failure, 2⟩) 2 specBody)).ret = -1 ∧
    (qemuProcessRequest specP ⟨.getVersion, 0⟩
        (Wire.mk true (some ⟨.failure, 2⟩) 2 specBody)).raised =
      some (.remoteError 7 (some ['b', 'a', 'd'])) := by
  have h := c3_type_mismatch_protocol_error specP ⟨.getVersion, 0⟩ ⟨.failure, 2⟩
    (Wire.mk true (some ⟨.failure, 2⟩) 2 specBody) rfl rfl (by decide) (by decide)
    (by decide)
  refine ⟨by decide, h.1, ?_⟩
  rw [h.2.1]
  decide

/-- Claim C4: for every capacity and every successful reply reporting
`n` running domains, `qemuListDomains` writes exactly `min n maxids`
entries (the first ones of the reply), returns `min n maxids`, never
writes past the capacity, and never returns an error. -/
theorem c4_list_domains_truncation (reply : ListDomainsReply) (maxids : Int)
    (hn : 0 ≤ reply.numDomains) (hm : 0 ≤ maxids) :
    (qemuListDomains reply maxids).ret = min reply.numDomains maxids ∧
    (qemuListDomains reply maxids).written =
      (List.range (min reply.numDomains maxids).toNat).map reply.domains ∧
    ((qemuListDomains reply maxids).written.length : Int) =
      min reply.numDomains maxids ∧
    ((qemuListDomains reply maxids).written.length : Int) ≤ maxids ∧
    0 ≤ (qemuListDomains reply maxids).ret := by
  have hmin : (if reply.numDomains > maxids then maxids else reply.numDomains) =
      min reply.numDomains maxids := by
    rcases le_or_lt reply.numDomains maxids with h | h
    · simp [not_lt.mpr h, min_eq_left h]
    · simp [h, min_eq_right h.le]
  have hlen : ((min reply.numDomains maxids).toNat : Int) =
      min reply.numDomains maxids := Int.toNat_of_nonneg (le_min hn hm)
  refine ⟨?_, ?_, ?_, ?_, ?_⟩
  · simp [qemuListDomains, hmin]
  · simp [qemuListDomains, hmin]
  · simp [qemuListDomains, hmin, hlen]
  · simp only [qemuListDomains, hmin, List.length_map, List.length_range]
    rw [hlen]; exact min_le_right _ _
  · simp only [qemuListDomains, hmin]
    exact le_min hn hm

/-- Claim C4 witness: a daemon reporting 5 running domains against a
caller capacity of 2 yields exactly the first 2 ids and the return value
2. -/
theorem c4_witness :
    (qemuListDomains ⟨5, fun i => (i : Int)⟩ 2).ret = min 5 2 ∧
    (qemuListDomains ⟨5, fun i => (i : Int)⟩ 2).written =
      (List.range ((min 5 2 : Int)).toNat).map (fun i => (i : Int)) :=
  ⟨(c4_list_domains_truncation ⟨5, fun i => (i : Int)⟩ 2 (by decide) (by decide)).1,
   (c4_list_domains_truncation ⟨5, fun i => (i : Int)⟩ 2 (by decide) (by decide)).2.1⟩

/-- Claim C5 counterexample: `qemuListDefinedDomains` does not return
`-1` when the daemon reports more entries (5) than the caller's capacity
(2); it silently truncates and returns 2. -/
theorem c5_counterexample :
    (qemuListDefinedDomains 10 ⟨5, fun _ => ['a']⟩ 2).ret = 2 ∧
    (qemuListDefinedDomains 10 ⟨5, fun _ => ['a']⟩ 2).ret ≠ -1 :=
  ⟨rfl, by decide⟩

/-- Claim C5 (amended): when the daemon reports more entries than the
caller's capacity, `qemuListNetworks` and `qemuListDefinedNetworks`
return `-1` writing nothing, whereas `qemuListDefinedDomains` — like
`qemuListDomains` — silently truncates to the capacity. -/
theorem c5_list_capacity_policy (maxNameLen : Nat) (nr ir : ListNamesReply)
    (dr : ListDomainsReply) (maxn : Int)
    (h1 : nr.num > maxn) (h2 : ir.num > maxn) (h3 : dr.numDomains > maxn)
    (hm : 0 ≤ maxn) :
    (qemuListNetworks maxNameLen nr maxn).ret = -1 ∧
    (qemuListNetworks maxNameLen nr maxn).written = [] ∧
    (qemuListDefinedNetworks maxNameLen nr maxn).ret = -1 ∧
    (qemuListDefinedNetworks maxNameLen nr maxn).written = [] ∧
    (qemuListDefinedDomains maxNameLen ir maxn).ret = maxn ∧
    ((qemuListDefinedDomains maxNameLen ir maxn).written.length : Int) = maxn ∧
    (qemuListDomains dr maxn).ret = maxn ∧
    ((qemuListDomains dr maxn).written.length : Int) = maxn := by
  have htn : (maxn.toNat : Int) = maxn := Int.toNat_of_nonneg hm
  refine ⟨?_, ?_, ?_, ?_, ?_, ?_, ?_, ?_⟩
  · simp [qemuListNetworks, h1]
  · simp [qemuListNetworks, h1]
  · simp [qemuListDefinedNetworks, h1]
  · simp [qemuListDefinedNetworks, h1]
  · simp [qemuListDefinedDomains, h2]
  · simp [qemuListDefinedDomains, h2, htn]
  · simp [qemuListDomains, h3]
  · simp [qemuListDomains, h3, htn]

/-- Claim C5 witness: with 5 reported entries against capacity 2, the
network listings error with `-1` and both domain listings return 2. -/
theorem c5_witness :
    (qemuListNetworks 10 ⟨5, fun _ => ['a']⟩ 2).ret = -1 ∧
    (qemuListDefinedNetworks 10 ⟨5, fun _ => ['a']⟩ 2).ret = -1 ∧
    (qemuListDefinedDomains 10 ⟨5, fun _ => ['a']⟩ 2).ret = 2 ∧
    (qemuListDomains ⟨5, fun i => (i : Int)⟩ 2).ret = 2 := by
  have h := c5_list_capacity_policy 10 ⟨5, fun _ => ['a']⟩ ⟨5, fun _ => ['a']⟩
    ⟨5, fun i => (i : Int)⟩ 2 (by decide) (by decide) (by decide) (by decide)
  exact ⟨h.1, h.2.2.1, h.2.2.2.2.1, h.2.2.2.2.2.2.1⟩

/-- Claim C6: a configuration document longer than the maximum document
size (`QEMUD_MAX_XML_LEN - 1`, one slot being reserved for the NUL)
makes both domain create-from-description and define-from-description
fail locally, with no packet written to the connection. -/
theorem c6_oversize_config_fails_locally (P : ProtoConsts) (xml : List Char)
    (w : Wire) (hlen : xml.length > P.maxXmlLen - 1) :
    qemuDomainCreateLinux P xml w = ⟨false, none⟩ ∧
    qemuDomainDefineXML P xml w = ⟨false, none⟩ := by
  constructor
  · simp [qemuDomainCreateLinux, hlen]
  · simp [qemuDomainDefineXML, hlen]

/-- Claim C6 witness: a 4-character document against a maximum length of
4 (maximum document size 3) fails locally in both operations without a
round trip. -/
theorem c6_witness :
    qemuDomainCreateLinux specP ['a', 'a', 'a', 'a']
        (Wire.mk true none 0 specBody) = ⟨false, none⟩ ∧
    qemuDomainDefineXML specP ['a', 'a', 'a', 'a']
        (Wire.mk true none 0 specBody) = ⟨false, none⟩ :=
  c6_oversize_config_fails_locally specP ['a', 'a', 'a', 'a']
    (Wire.mk true none 0 specBody) (by decide)

/-- Claim C7: domain undefine and network undefine release the local
handle exactly once whatever the remote exchange did, and a failed
remote exchange still makes the operation report failure. -/
theorem c7_undefine_releases_once (pd fd pn fn : Int) :
    (qemuUndefine pd fd).freeCalls = 1 ∧
    (qemuNetworkUndefine pn fn).freeCalls = 1 ∧
    (pd < 0 → (qemuUndefine pd fd).ret = -1) ∧
    (pn < 0 → (qemuNetworkUndefine pn fn).ret = -1) := by
  refine ⟨rfl, rfl, ?_, ?_⟩
  · intro h
    simp only [qemuUndefine, if_pos h]
    split <;> rfl
  · intro h
    simp only [qemuNetworkUndefine, if_pos h]
    split <;> rfl

/-- Claim C7 witness: with the remote exchange failing and the local
release succeeding, both undefine operations release the handle exactly
once and return `-1`. -/
theorem c7_witness :
    (qemuUndefine (-1) 0).freeCalls = 1 ∧ (qemuUndefine (-1) 0).ret = -1 ∧
    (qemuNetworkUndefine (-1) 0).freeCalls = 1 ∧
    (qemuNetworkUndefine (-1) 0).ret = -1 :=
  ⟨(c7_undefine_releases_once (-1) 0 (-1) 0).1,
   (c7_undefine_releases_once (-1) 0 (-1) 0).2.2.1 (by decide),
   (c7_undefine_releases_once (-1) 0 (-1) 0).2.1,
   (c7_undefine_releases_once (-1) 0 (-1) 0).2.2.2 (by decide)⟩

/-- Claim C8: on a successful get-info exchange, the daemon run-states
running, paused and stopped map respectively to the driver states
running, paused and shutoff (with the memory/vcpu/time fields copied
from the reply), and any other run-state value makes the call fail
instead of defaulting to a state. -/
theorem c8_getinfo_state_mapping (P : ProtoConsts) (dom : VirDomain) (w : Wire)
    (h : QemudHeader) (hw : w.writeOk = true) (hh : w.header = some h)
    (htype : h.type = .domainGetInfo) (hsz : h.dataSize ≤ P.maxData)
    (hba : h.dataSize ≤ w.bodyAvail) :
    (w.body.getInfoRunstate = QEMUD_STATE_RUNNING →
      qemuGetDomainInfo P dom w =
        some ⟨.running, w.body.getInfoMaxmem, w.body.getInfoMemory,
              w.body.getInfoNrVirtCpu, w.body.getInfoCpuTime⟩) ∧
    (w.body.getInfoRunstate = QEMUD_STATE_PAUSED →
      qemuGetDomainInfo P dom w =
        some ⟨.paused, w.body.getInfoMaxmem, w.body.getInfoMemory,
              w.body.getInfoNrVirtCpu, w.body.getInfoCpuTime⟩) ∧
    (w.body.getInfoRunstate = QEMUD_STATE_STOPPED →
      qemuGetDomainInfo P dom w =
        some ⟨.shutoff, w.body.getInfoMaxmem, w.body.getInfoMemory,
              w.body.getInfoNrVirtCpu, w.body.getInfoCpuTime⟩) ∧
    (w.body.getInfoRunstate ≠ QEMUD_STATE_RUNNING →
     w.body.getInfoRunstate ≠ QEMUD_STATE_PAUSED →
     w.body.getInfoRunstate ≠ QEMUD_STATE_STOPPED →
      qemuGetDomainInfo P dom w = none) := by
  have h1 : ¬ h.dataSize > P.maxData := by omega
  have h2 : ¬ h.dataSize > w.bodyAvail := by omega
  have hreq : qemuProcessRequest P ⟨.domainGetInfo, P.szDomainGetInfoRequest⟩ w =
      ⟨0, none, h.dataSize⟩ := by
    simp [qemuProcessRequest, hw, hh, h1, h2, htype]
  refine ⟨?_, ?_, ?_, ?_⟩
  · intro hr
    simp [qemuGetDomainInfo, hreq, hr]
  · intro hr
    simp [qemuGetDomainInfo, hreq, hr, QEMUD_STATE_PAUSED, QEMUD_STATE_RUNNING]
  · intro hr
    simp [qemuGetDomainInfo, hreq, hr, QEMUD_STATE_PAUSED, QEMUD_STATE_RUNNING,
          QEMUD_STATE_STOPPED]
  · intro hr1 hr2 hr3
    simp [qemuGetDomainInfo, hreq, hr1, hr2, hr3]

/-- Claim C8 witness: a running reply maps to the driver running state,
and an unrecognized run-state value (9) makes the call fail. -/
theorem c8_witness :
    qemuGetDomainInfo specP ⟨4, [1, 2]⟩
        (Wire.mk true (some ⟨.domainGetInfo, 1⟩) 1
          ⟨0, [], QEMUD_STATE_RUNNING, 11, 12, 13, 14, [], [], 0, [], []⟩) =
      some ⟨.running, 11, 12, 13, 14⟩ ∧
    qemuGetDomainInfo specP ⟨4, [1, 2]⟩
        (Wire.mk true (some ⟨.domainGetInfo, 1⟩) 1
          ⟨0, [], 9, 11, 12, 13, 14, [], [], 0, [], []⟩) = none :=
  ⟨(c8_getinfo_state_mapping specP ⟨4, [1, 2]⟩
      (Wire.mk true (some ⟨.domainGetInfo, 1⟩) 1
        ⟨0, [], QEMUD_STATE_RUNNING, 11, 12, 13, 14, [], [], 0, [], []⟩)
      ⟨.domainGetInfo, 1⟩ rfl rfl rfl (by decide) (by decide)).1 rfl,
   (c8_getinfo_state_mapping specP ⟨4, [1, 2]⟩
      (Wire.mk true (some ⟨.domainGetInfo, 1⟩) 1
        ⟨0, [], 9, 11, 12, 13, 14, [], [], 0, [], []⟩)
      ⟨.domainGetInfo, 1⟩ rfl rfl rfl (by decide) (by decide)).2.2.2
     (by decide) (by decide) (by decide)⟩

/-- Claim C9: closing an open connection releases its descriptor exactly
once, succeeds and marks the connection closed; a second close on the
resulting connection releases nothing, still succeeds and leaves the
state unchanged. -/
theorem c9_close_idempotent (c : VirConnect) (hopen : c.qemud_fd ≠ -1) :
    (qemuClose c).closedFds = [c.qemud_fd] ∧
    (qemuClose c).ret = 0 ∧
    (qemuClose c).conn = ⟨-1⟩ ∧
    (qemuClose (qemuClose c).conn).closedFds = [] ∧
    (qemuClose (qemuClose c).conn).ret = 0 ∧
    (qemuClose (qemuClose c).conn).conn = (qemuClose c).conn := by
  have hfst : qemuClose c = ⟨⟨-1⟩, 0, [c.qemud_fd]⟩ := by
    simp [qemuClose, hopen]
  refine ⟨?_, ?_, ?_, ?_, ?_, ?_⟩ <;> rw [hfst] <;> simp [qemuClose]

/-- Claim C9 witness: closing a connection holding descriptor 5 releases
exactly that descriptor once; the second close is a successful no-op. -/
theorem c9_witness :
    (qemuClose ⟨5⟩).closedFds = [(5 : Int)] ∧
    (qemuClose (qemuClose ⟨5⟩).conn).closedFds = [] ∧
    (qemuClose (qemuClose ⟨5⟩).conn).ret = 0 ∧
    (qemuClose (qemuClose ⟨5⟩).conn).conn = (qemuClose ⟨5⟩).conn :=
  ⟨(c9_close_idempotent ⟨5⟩ (by decide)).1,
   (c9_close_idempotent ⟨5⟩ (by decide)).2.2.2.1,
   (c9_close_idempotent ⟨5⟩ (by decide)).2.2.2.2.1,
   (c9_close_idempotent ⟨5⟩ (by decide)).2.2.2.2.2⟩

/-- Claim C10: the shutdown operation is extensionally the destroy
operation — it sends exactly the domain-destroy request carrying the
domain's id and returns the same result destroy returns on the same
connection state. -/
theorem c10_shutdown_equals_destroy (P : ProtoConsts) (dom : VirDomain)
    (w : Wire) :
    qemuShutdownDomain P dom w = qemuDestroyDomain P dom w ∧
    (qemuShutdownDomain P dom w).sentReq =
      ⟨QemudPktType.domainDestroy, P.szDomainDestroyRequest, dom.id⟩ ∧
    (qemuShutdownDomain P dom w).ret = (qemuDestroyDomain P dom w).ret :=
  ⟨rfl, rfl, rfl⟩
